import Mathlib

/-!
Shallow embedding of the APDS9960 ambient-light-sensor driver (src/als.c)
and verification of the specification's claims about it.

The embedding models:
* the register addresses and the regmap access tables (volatile, precious,
  readable ranges) exactly as declared in the source;
* a regmap state (cache plus hardware register file) with the kernel regmap
  contract: volatile registers bypass the cache, non-volatile reads are
  served from the cache when present, writes go to the bus and (for
  non-volatile registers) to the cache, `regmap_update_bits` performs a
  read-modify-write and skips the bus write when the value is unchanged;
* `apds9960_write_raw` (the integration-time write path),
  `apds9960_read_raw` (the scale query), the event-config read/write
  callbacks and the interrupt handler.

Machine integers: the C field `als_adc_int_us` is a 32-bit `int`; the
64-bit intermediate of the integration-time computation is truncated to
32 bits on store, modelled by `toInt32` (wrap modulo 2^32 into the signed
range).  Bus failures are modelled by a boolean `busOk` parameter: when it
is false every attempted bus transaction fails (the kernel reports -EIO).
-/

/-- ATIME register address (0x81 in src/als.c). -/
def APDS9960_REG_ATIME : Nat := 0x81

/-- Base address of the ALS channel data registers (0x94 in src/als.c). -/
def APDS9960_REG_ALS_BASE : Nat := 0x94

/-- Maximum integration time in microseconds (APDS9960_MAX_INT_TIME_IN_US). -/
def APDS9960_MAX_INT_TIME_IN_US : Int := 1000000

/-- The four ALS channel indices (enum apds9960_als_channel_idx). -/
inductive AlsChannelIdx
  | clear
  | red
  | green
  | blue
deriving DecidableEq

/-- Numeric value of an ALS channel index. -/
def AlsChannelIdx.idx : AlsChannelIdx → Nat
  | .clear => 0
  | .red => 1
  | .green => 2
  | .blue => 3

/-- Low-byte address of an ALS channel register pair
(APDS9960_REG_ALS_CHANNEL macro: base + idx * 2). -/
def APDS9960_REG_ALS_CHANNEL (c : AlsChannelIdx) : Nat :=
  APDS9960_REG_ALS_BASE + c.idx * 2

/-- A contiguous register range, as in struct regmap_range. -/
structure RegmapRange where
  range_min : Nat
  range_max : Nat

/-- Membership of a register in a regmap_range (inclusive bounds). -/
def RegmapRange.covers (r : RegmapRange) (reg : Nat) : Bool :=
  decide (r.range_min ≤ reg) && decide (reg ≤ r.range_max)

/-- An access table: a list of yes-ranges (struct regmap_access_table). -/
structure RegmapAccessTable where
  yes_ranges : List RegmapRange

/-- A table allows a register when some yes-range covers it. -/
def RegmapAccessTable.allows (t : RegmapAccessTable) (reg : Nat) : Bool :=
  t.yes_ranges.any (fun r => r.covers reg)

/-- apds9960_volatile_ranges: regmap_reg_range(ALS_BASE, ALS_BASE + 2). -/
def apds9960_volatile_ranges : List RegmapRange :=
  [⟨APDS9960_REG_ALS_BASE, APDS9960_REG_ALS_BASE + 2⟩]

/-- apds9960_volatile_table. -/
def apds9960_volatile_table : RegmapAccessTable :=
  ⟨apds9960_volatile_ranges⟩

/-- apds9960_precious_ranges: regmap_reg_range(ALS_BASE + 4, ALS_BASE + 6). -/
def apds9960_precious_ranges : List RegmapRange :=
  [⟨APDS9960_REG_ALS_BASE + 4, APDS9960_REG_ALS_BASE + 6⟩]

/-- apds9960_precious_table. -/
def apds9960_precious_table : RegmapAccessTable :=
  ⟨apds9960_precious_ranges⟩

/-- apds9960_readable_ranges: regmap_reg_range(REG_ATIME, ALS_BASE + 6). -/
def apds9960_readable_ranges : List RegmapRange :=
  [⟨APDS9960_REG_ATIME, APDS9960_REG_ALS_BASE + 6⟩]

/-- apds9960_readable_table. -/
def apds9960_readable_table : RegmapAccessTable :=
  ⟨apds9960_readable_ranges⟩

/-- Is a register volatile under apds9960_regmap_config? -/
def regmap_volatile (reg : Nat) : Bool :=
  apds9960_volatile_table.allows reg

/-- Is a register precious under apds9960_regmap_config? -/
def regmap_precious (reg : Nat) : Bool :=
  apds9960_precious_table.allows reg

/-- Is a register readable under apds9960_regmap_config? -/
def regmap_readable (reg : Nat) : Bool :=
  apds9960_readable_table.allows reg

/-- Kernel status result: 0 (ok) or a negative errno. -/
inductive Errno
  | einval
  | eio
deriving DecidableEq

/-- Result code of a kernel call: success or an errno. -/
inductive KRet
  | ok
  | err (e : Errno)
deriving DecidableEq

/-- Errno as the C integer return value (-EINVAL = -22, -EIO = -5). -/
def errnoInt : Errno → Int
  | .einval => -22
  | .eio => -5

/-- A bus (I2C) transaction, for counting register accesses. -/
inductive BusOp
  | busRead (reg : Nat)
  | busWrite (reg : Nat) (v : Nat)
deriving DecidableEq

/-- Regmap state: host-side cache plus the hardware register file.
All register values are bytes (val_bits = 8). -/
structure RegmapState where
  cache : Nat → Option Nat
  hw : Nat → Nat

/-- Result of regmap_read: new state, bus ops, value read (meaningful only
when ret = ok) and status. -/
structure RmReadRes where
  rm : RegmapState
  ops : List BusOp
  value : Nat
  ret : KRet

/-- Kernel regmap_read over apds9960_regmap_config: non-readable registers
fail; volatile registers always go to the bus; otherwise the cache is used
when it holds the register, and a miss is filled from the bus. -/
def regmap_read (rm : RegmapState) (busOk : Bool) (reg : Nat) : RmReadRes :=
  if regmap_readable reg = false then ⟨rm, [], 0, .err .eio⟩
  else if regmap_volatile reg = true then
    if busOk then ⟨rm, [.busRead reg], rm.hw reg, .ok⟩
    else ⟨rm, [.busRead reg], 0, .err .eio⟩
  else
    match rm.cache reg with
    | some v => ⟨rm, [], v, .ok⟩
    | none =>
      if busOk then
        ⟨⟨fun r => if r = reg then some (rm.hw reg) else rm.cache r, rm.hw⟩,
         [.busRead reg], rm.hw reg, .ok⟩
      else ⟨rm, [.busRead reg], 0, .err .eio⟩

/-- Result of regmap_write / regmap_update_bits. -/
structure RmWriteRes where
  rm : RegmapState
  ops : List BusOp
  ret : KRet

/-- Kernel regmap_write: the byte goes to the bus; non-volatile registers
are also cached.  On bus failure nothing changes. -/
def regmap_write (rm : RegmapState) (busOk : Bool) (reg v : Nat) : RmWriteRes :=
  if busOk then
    if regmap_volatile reg = true then
      ⟨⟨rm.cache, fun r => if r = reg then v % 256 else rm.hw r⟩,
       [.busWrite reg (v % 256)], .ok⟩
    else
      ⟨⟨fun r => if r = reg then some (v % 256) else rm.cache r,
        fun r => if r = reg then v % 256 else rm.hw r⟩,
       [.busWrite reg (v % 256)], .ok⟩
  else ⟨rm, [.busWrite reg (v % 256)], .err .eio⟩

/-- Kernel regmap_update_bits: read-modify-write; the bus write is skipped
when the masked update leaves the byte unchanged.  The complement of the
mask is taken at the 8-bit register width (mask ^^^ 0xff). -/
def regmap_update_bits (rm : RegmapState) (busOk : Bool) (reg mask v : Nat) :
    RmWriteRes :=
  let rd := regmap_read rm busOk reg
  match rd.ret with
  | .err e => ⟨rd.rm, rd.ops, .err e⟩
  | .ok =>
    let tmp := (rd.value &&& (mask ^^^ 0xff)) ||| (v &&& mask)
    if tmp = rd.value then ⟨rd.rm, rd.ops, .ok⟩
    else
      let wr := regmap_write rd.rm busOk reg tmp
      ⟨wr.rm, rd.ops ++ wr.ops, wr.ret⟩

/-- Driver state (struct apds9960_data): event identifier `als_int`,
gain `als_gain`, and the 32-bit `int als_adc_int_us`. -/
structure Apds9960Data where
  als_int : Int
  als_gain : Int
  als_adc_int_us : Int
deriving DecidableEq

/-- Truncation of a 64-bit value to a 32-bit signed int (the store into
the `int als_adc_int_us` field): wrap modulo 2^32 into [-2^31, 2^31). -/
def toInt32 (n : Int) : Int :=
  let m := n % 4294967296
  if m < 2147483648 then m else m - 4294967296

/-- The 64-bit integration-time computation of apds9960_write_raw,
`1000000LL * (256 - val) * als_gain / 1000` (C division truncates toward
zero), truncated to 32 bits by the store into `als_adc_int_us`. -/
def apds9960_compute_int_time_us (val gain : Int) : Int :=
  toInt32 (Int.tdiv (1000000 * (256 - val) * gain) 1000)

/-- The kernel clamp() macro: min(max(x, lo), hi). -/
def clampLL (x lo hi : Int) : Int := min (max x lo) hi

/-- The clamping sequence of apds9960_write_raw: the explicit if/else pair
followed by the (redundant) clamp() call, both to [1000, 1000000]. -/
def apds9960_clamp_int_time (us : Int) : Int :=
  clampLL
    (if us < 1000 then 1000
     else if us > APDS9960_MAX_INT_TIME_IN_US then APDS9960_MAX_INT_TIME_IN_US
     else us)
    1000 APDS9960_MAX_INT_TIME_IN_US

/-- The gain switch of apds9960_write_raw: gains 1/4/16/64 map to register
codes 0..3 (the code is computed but unused); any other gain is rejected
with -EINVAL. -/
def apds9960_gain_reg (g : Int) : Option Nat :=
  if g = 1 then some 0
  else if g = 4 then some 1
  else if g = 16 then some 2
  else if g = 64 then some 3
  else none

/-- The IIO info-mask cases reaching the driver callbacks. -/
inductive IioChanInfo
  | raw
  | scale
  | int_time
deriving DecidableEq

/-- Result of apds9960_write_raw: updated driver state, regmap state,
bus transactions performed, and the status returned to the caller. -/
structure WriteRawRes where
  data : Apds9960Data
  rm : RegmapState
  ops : List BusOp
  ret : KRet

/-- apds9960_write_raw (src/als.c lines 178-222): rejects masks other than
INT_TIME; stores the computed and clamped microsecond value into
`als_adc_int_us` (before validating the gain); rejects gains outside
{1,4,16,64}; finally commits `255 - val` to ATIME via regmap_update_bits
with mask 0xff.  The value passed to regmap_update_bits is the C `int`
`255 - val` converted to an unsigned register value (modulo 256 at the
8-bit width). -/
def apds9960_write_raw (data : Apds9960Data) (rm : RegmapState) (busOk : Bool)
    (mask : IioChanInfo) (val : Int) : WriteRawRes :=
  if mask ≠ IioChanInfo.int_time then ⟨data, rm, [], .err .einval⟩
  else
    let data1 := { data with
      als_adc_int_us :=
        apds9960_clamp_int_time (apds9960_compute_int_time_us val data.als_gain) }
    match apds9960_gain_reg data.als_gain with
    | none => ⟨data1, rm, [], .err .einval⟩
    | some _ =>
      let ub := regmap_update_bits rm busOk APDS9960_REG_ATIME 0xff
        (((255 - val) % 256).toNat)
      ⟨data1, ub.rm, ub.ops, ub.ret⟩

/-- The channel modifier (chan->channel2) of a scale query. -/
inductive IioModLight
  | clear
  | red
  | green
  | blue
  | other
deriving DecidableEq

/-- Return code of apds9960_read_raw: IIO_VAL_FRACTIONAL_LOG2 or an errno. -/
inductive ReadRawRet
  | fractionalLog2
  | err (e : Errno)
deriving DecidableEq

/-- Outcome of the delegated iio_read_channel_ext_info call: the values it
writes into *val / *val2 and its status. -/
structure ExtInfoRes where
  val : Int
  val2 : Int
  ret : KRet

/-- Result of apds9960_read_raw: the out-parameters *val / *val2, the
number of ext-info (delegated) calls performed, and the return code. -/
structure ReadRawRes where
  val : Int
  val2 : Int
  extCalls : Nat
  ret : ReadRawRet
deriving DecidableEq

/-- apds9960_read_raw (src/als.c lines 151-176): only the SCALE mask is
handled.  For the four light modifiers it first delegates to
iio_read_channel_ext_info (propagating its error), then overwrites the
result with the fixed fraction 0 / 10000 and returns FRACTIONAL_LOG2.
Any other modifier, and any other mask (including RAW), returns -EINVAL
without touching the out-parameters or performing any access. -/
def apds9960_read_raw (mod2 : IioModLight) (mask : IioChanInfo)
    (ext : ExtInfoRes) (val0 val20 : Int) : ReadRawRes :=
  if mask = IioChanInfo.scale then
    match mod2 with
    | .other => ⟨val0, val20, 0, .err .einval⟩
    | _ =>
      match ext.ret with
      | .err e => ⟨ext.val, ext.val2, 1, .err e⟩
      | .ok => ⟨0, 10000, 1, .fractionalLog2⟩
  else ⟨val0, val20, 0, .err .einval⟩

/-- Result of apds9960_als_write_event_config. -/
structure EventCfgWriteRes where
  rm : RegmapState
  data : Apds9960Data
  ops : List BusOp
  ret : KRet

/-- apds9960_als_write_event_config (src/als.c lines 246-256): writes the
enable state to the clear-channel register via regmap_write and returns
its status. -/
def apds9960_als_write_event_config (rm : RegmapState) (data : Apds9960Data)
    (busOk : Bool) (state : Nat) : EventCfgWriteRes :=
  let wr := regmap_write rm busOk (APDS9960_REG_ALS_CHANNEL .clear) state
  ⟨wr.rm, data, wr.ops, wr.ret⟩

/-- Result of apds9960_als_read_event_config: `retc` is the integer value
the callback returns to the IIO core (regmap_read's status: 0 on success,
a negative errno on failure). -/
structure EventCfgReadRes where
  rm : RegmapState
  data : Apds9960Data
  ops : List BusOp
  retc : Int

/-- apds9960_als_read_event_config (src/als.c lines 235-244): reads the
clear-channel register into data->als_int and returns regmap_read's
status (not the value read). -/
def apds9960_als_read_event_config (rm : RegmapState) (data : Apds9960Data)
    (busOk : Bool) : EventCfgReadRes :=
  let rd := regmap_read rm busOk (APDS9960_REG_ALS_CHANNEL .clear)
  match rd.ret with
  | .ok => ⟨rd.rm, { data with als_int := (rd.value : Int) }, rd.ops, 0⟩
  | .err e => ⟨rd.rm, data, rd.ops, errnoInt e⟩

/-- An IIO event notification: event code and timestamp. -/
structure IioEvent where
  code : Int
  timestamp : Int
deriving DecidableEq

/-- Return value of the threaded IRQ handler. -/
inductive IrqReturn
  | handled
deriving DecidableEq

/-- Result of one interrupt-handler invocation: the events pushed, the bus
transactions performed, and the handler's return value. -/
structure IrqRes where
  events : List IioEvent
  ops : List BusOp
  ret : IrqReturn

/-- apds9960_als_irq_handler (src/als.c lines 224-233): pushes exactly one
event carrying data->als_int as the event code and the current clock value
as the timestamp; performs no register access; returns IRQ_HANDLED.
`now` is the value of iio_get_time_ns at the invocation. -/
def apds9960_als_irq_handler (data : Apds9960Data) (now : Int) : IrqRes :=
  ⟨[⟨data.als_int, now⟩], [], .handled⟩

/-- n back-to-back interrupt assertions: the i-th assertion invokes the
handler with clock reading `clock i`. -/
def runIrqAssertions (data : Apds9960Data) (clock : Nat → Int) : Nat → List IioEvent
  | 0 => []
  | n + 1 =>
      runIrqAssertions data clock n ++ (apds9960_als_irq_handler data (clock n)).events

/-- Regmap state right after probe: the cache holds the ATIME default 0xff
(reg_defaults) and the hardware ATIME register was written to 0xff; all
other registers read as 0 and are uncached. -/
def rmInit : RegmapState :=
  ⟨fun r => if r = APDS9960_REG_ATIME then some 0xff else none,
   fun r => if r = APDS9960_REG_ATIME then 0xff else 0⟩

/-! ## Helper lemmas -/

/-- The clamping sequence always lands in [1000, 1000000]. -/
lemma clamp_int_time_range (us : Int) :
    1000 ≤ apds9960_clamp_int_time us ∧ apds9960_clamp_int_time us ≤ 1000000 := by
  unfold apds9960_clamp_int_time clampLL APDS9960_MAX_INT_TIME_IN_US
  constructor <;> (simp only [min_def, max_def]; split_ifs <;> omega)

/-- On the integration-time path the stored driver state is the input state
with `als_adc_int_us` replaced by the computed and clamped value, whatever
the gain and whatever the bus does. -/
lemma write_raw_data_eq (d : Apds9960Data) (rm : RegmapState) (busOk : Bool)
    (val : Int) :
    (apds9960_write_raw d rm busOk .int_time val).data =
      { d with als_adc_int_us :=
          apds9960_clamp_int_time (apds9960_compute_int_time_us val d.als_gain) } := by
  unfold apds9960_write_raw
  split
  · rename_i h
    exact absurd rfl h
  · split <;> rfl

/-- Reading ATIME when it is cached is served from the cache, touching
neither the bus nor the state. -/
lemma regmap_read_atime_cached (rm : RegmapState) (busOk : Bool) (c : Nat)
    (hcache : rm.cache APDS9960_REG_ATIME = some c) :
    regmap_read rm busOk APDS9960_REG_ATIME = ⟨rm, [], c, .ok⟩ := by
  unfold regmap_read
  rw [if_neg (by decide), if_neg (by decide), hcache]

/-- Masking a byte with 0xff after clearing against the complemented mask
is the identity on bytes. -/
lemma update_bits_tmp_eq (c v : Nat) (hv : v < 256) :
    (c &&& (0xff ^^^ 0xff)) ||| (v &&& 0xff) = v := by
  rw [Nat.xor_self, Nat.and_zero, Nat.zero_or,
    show (0xff : Nat) = 2 ^ 8 - 1 from rfl, Nat.and_pow_two_sub_one_eq_mod]
  exact Nat.mod_eq_of_lt hv

/-- A successful regmap_update_bits on the cached ATIME register with mask
0xff commits exactly the byte `v` to the register (cache and hardware),
whether or not the bus write is skipped as a no-op. -/
lemma update_bits_atime_ok (rm : RegmapState) (v c : Nat) (hv : v < 256)
    (hcache : rm.cache APDS9960_REG_ATIME = some c)
    (hhw : rm.hw APDS9960_REG_ATIME = c) :
    (regmap_update_bits rm true APDS9960_REG_ATIME 0xff v).ret = .ok ∧
    (regmap_update_bits rm true APDS9960_REG_ATIME 0xff v).rm.cache
      APDS9960_REG_ATIME = some v ∧
    (regmap_update_bits rm true APDS9960_REG_ATIME 0xff v).rm.hw
      APDS9960_REG_ATIME = v := by
  unfold regmap_update_bits
  rw [regmap_read_atime_cached rm true c hcache]
  dsimp only
  rw [update_bits_tmp_eq c v hv]
  by_cases hvc : v = c
  · rw [if_pos hvc]
    exact ⟨rfl, by rw [hcache, hvc], by rw [hhw, hvc]⟩
  · rw [if_neg hvc]
    unfold regmap_write
    rw [if_pos rfl, if_neg (by decide)]
    dsimp only
    refine ⟨rfl, ?_, ?_⟩ <;>
      simp [Nat.mod_eq_of_lt hv]

/-! ## Claim theorems -/

/-- C1: for every requested value in [0,255] and every gain in {1,4,16,64},
a successful integration-time write commits exactly the byte 255 - val to
the ATIME register (cache and hardware), independent of whether the derived
microsecond value was clamped. -/
theorem set_integration_time_commits_inverted_byte
    (d : Apds9960Data) (rm : RegmapState) (val : Int) (c : Nat)
    (hval0 : 0 ≤ val) (hval : val ≤ 255)
    (hgain : d.als_gain = 1 ∨ d.als_gain = 4 ∨ d.als_gain = 16 ∨ d.als_gain = 64)
    (hcache : rm.cache APDS9960_REG_ATIME = some c)
    (hhw : rm.hw APDS9960_REG_ATIME = c) :
    (apds9960_write_raw d rm true .int_time val).ret = .ok ∧
    (apds9960_write_raw d rm true .int_time val).rm.cache APDS9960_REG_ATIME =
      some (255 - val).toNat ∧
    (apds9960_write_raw d rm true .int_time val).rm.hw APDS9960_REG_ATIME =
      (255 - val).toNat := by
  have hveq : ((255 - val) % 256).toNat = (255 - val).toNat := by
    rw [Int.emod_eq_of_lt (by omega) (by omega)]
  have hvlt : ((255 - val) % 256).toNat < 256 := by omega
  obtain ⟨hr, hcac, hhw2⟩ :=
    update_bits_atime_ok rm (((255 - val) % 256).toNat) c hvlt hcache hhw
  obtain ⟨k, hk⟩ : ∃ k, apds9960_gain_reg d.als_gain = some k := by
    rcases hgain with h | h | h | h <;> rw [h] <;> exact ⟨_, rfl⟩
  unfold apds9960_write_raw
  rw [if_neg (by simp), hk]
  dsimp only
  exact ⟨hr, hveq ▸ hcac, hveq ▸ hhw2⟩

/-- Witness for C1 at val = 0, gain = 64 (a clamped case): the committed
ATIME byte is 255. -/
theorem set_integration_time_commits_inverted_byte_witness :
    (apds9960_write_raw ⟨0, 64, 0⟩ rmInit true .int_time 0).ret = .ok ∧
    (apds9960_write_raw ⟨0, 64, 0⟩ rmInit true .int_time 0).rm.cache
      APDS9960_REG_ATIME = some (255 - (0 : Int)).toNat ∧
    (apds9960_write_raw ⟨0, 64, 0⟩ rmInit true .int_time 0).rm.hw
      APDS9960_REG_ATIME = (255 - (0 : Int)).toNat :=
  set_integration_time_commits_inverted_byte ⟨0, 64, 0⟩ rmInit 0 0xff
    (by decide) (by decide) (by simp) (by decide) (by decide)

/-- C2 counterexample: with gain 5 (invalid) the call fails with -EINVAL,
yet the stored `als_adc_int_us` field has been overwritten (from 5000 to
the recomputed clamped value 1000000): the state is not left unchanged on
failure. -/
theorem set_integration_time_failure_updates_field_cex :
    (Apds9960Data.mk 0 5 5000).als_adc_int_us = 5000 ∧
    (apds9960_write_raw ⟨0, 5, 5000⟩ rmInit true .int_time 0).ret =
      .err .einval ∧
    (apds9960_write_raw ⟨0, 5, 5000⟩ rmInit true .int_time 0).data.als_adc_int_us
      = 1000000 ∧
    (1000000 : Int) ≠ 5000 := by
  refine ⟨rfl, by decide, by decide, by decide⟩

/-- C2 amended: on failure (invalid gain, or a bus write that actually
fails) the call returns an error, the register state (cache and hardware)
is unchanged and the gain and event fields are unchanged, but the stored
`als_adc_int_us` field has already been recomputed and clamped before the
validation and the bus write, so it may differ from its previous value. -/
theorem set_integration_time_failure_state_amended
    (d : Apds9960Data) (rm : RegmapState) (busOk : Bool) (val : Int) (c : Nat)
    (hcache : rm.cache APDS9960_REG_ATIME = some c)
    (hfail : apds9960_gain_reg d.als_gain = none ∨
      (busOk = false ∧ ((255 - val) % 256).toNat ≠ c)) :
    (apds9960_write_raw d rm busOk .int_time val).ret ≠ .ok ∧
    (apds9960_write_raw d rm busOk .int_time val).rm = rm ∧
    (apds9960_write_raw d rm busOk .int_time val).data.als_gain = d.als_gain ∧
    (apds9960_write_raw d rm busOk .int_time val).data.als_int = d.als_int ∧
    (apds9960_write_raw d rm busOk .int_time val).data.als_adc_int_us =
      apds9960_clamp_int_time (apds9960_compute_int_time_us val d.als_gain) := by
  have hvlt : ((255 - val) % 256).toNat < 256 := by omega
  rcases hfail with hg | ⟨hb, hne⟩
  · unfold apds9960_write_raw
    rw [if_neg (by simp), hg]
    exact ⟨by simp, rfl, rfl, rfl, rfl⟩
  · subst hb
    unfold apds9960_write_raw
    rw [if_neg (by simp)]
    cases hk : apds9960_gain_reg d.als_gain with
    | none => exact ⟨by simp, rfl, rfl, rfl, rfl⟩
    | some k =>
      dsimp only
      unfold regmap_update_bits
      rw [regmap_read_atime_cached rm false c hcache]
      dsimp only
      rw [update_bits_tmp_eq c (((255 - val) % 256).toNat) hvlt, if_neg hne]
      unfold regmap_write
      rw [if_neg (by simp)]
      exact ⟨by simp, rfl, rfl, rfl, rfl⟩

/-- Witness for C2 amended at gain 5. -/
theorem set_integration_time_failure_state_amended_witness :
    (apds9960_write_raw ⟨3, 5, 5000⟩ rmInit true .int_time 0).ret ≠ .ok ∧
    (apds9960_write_raw ⟨3, 5, 5000⟩ rmInit true .int_time 0).rm = rmInit ∧
    (apds9960_write_raw ⟨3, 5, 5000⟩ rmInit true .int_time 0).data.als_gain =
      (Apds9960Data.mk 3 5 5000).als_gain ∧
    (apds9960_write_raw ⟨3, 5, 5000⟩ rmInit true .int_time 0).data.als_int =
      (Apds9960Data.mk 3 5 5000).als_int ∧
    (apds9960_write_raw ⟨3, 5, 5000⟩ rmInit true .int_time 0).data.als_adc_int_us
      = apds9960_clamp_int_time
          (apds9960_compute_int_time_us 0 (Apds9960Data.mk 3 5 5000).als_gain) :=
  set_integration_time_failure_state_amended ⟨3, 5, 5000⟩ rmInit true 0 0xff
    (by decide) (Or.inl (by decide))

/-- C3: for every requested value in [0,255] and every gain in {1,4,16,64},
after the integration-time write the stored `als_adc_int_us` lies in
[1000, 1000000]. -/
theorem integration_time_us_clamped_range
    (d : Apds9960Data) (rm : RegmapState) (busOk : Bool) (val : Int)
    (hval0 : 0 ≤ val) (hval : val ≤ 255)
    (hgain : d.als_gain = 1 ∨ d.als_gain = 4 ∨ d.als_gain = 16 ∨ d.als_gain = 64) :
    1000 ≤ (apds9960_write_raw d rm busOk .int_time val).data.als_adc_int_us ∧
    (apds9960_write_raw d rm busOk .int_time val).data.als_adc_int_us ≤
      1000000 := by
  rw [write_raw_data_eq d rm busOk val]
  exact clamp_int_time_range _

/-- Witness for C3 at val = 10, gain = 16. -/
theorem integration_time_us_clamped_range_witness :
    1000 ≤ (apds9960_write_raw ⟨0, 16, 0⟩ rmInit true .int_time 10).data.als_adc_int_us ∧
    (apds9960_write_raw ⟨0, 16, 0⟩ rmInit true .int_time 10).data.als_adc_int_us
      ≤ 1000000 :=
  integration_time_us_clamped_range ⟨0, 16, 0⟩ rmInit true 10
    (by decide) (by decide) (by simp)

/-- C4: a gain outside {1,4,16,64} is rejected with -EINVAL, no bus
transaction is performed and the register state is untouched. -/
theorem invalid_gain_rejected_before_bus
    (d : Apds9960Data) (rm : RegmapState) (busOk : Bool) (val : Int)
    (h1 : d.als_gain ≠ 1) (h4 : d.als_gain ≠ 4)
    (h16 : d.als_gain ≠ 16) (h64 : d.als_gain ≠ 64) :
    (apds9960_write_raw d rm busOk .int_time val).ret = .err .einval ∧
    (apds9960_write_raw d rm busOk .int_time val).ops = [] ∧
    (apds9960_write_raw d rm busOk .int_time val).rm = rm := by
  have hg : apds9960_gain_reg d.als_gain = none := by
    unfold apds9960_gain_reg
    rw [if_neg h1, if_neg h4, if_neg h16, if_neg h64]
  unfold apds9960_write_raw
  rw [if_neg (by simp), hg]
  exact ⟨rfl, rfl, rfl⟩

/-- Witness for C4 at gain 5. -/
theorem invalid_gain_rejected_before_bus_witness :
    (apds9960_write_raw ⟨0, 5, 0⟩ rmInit false .int_time 7).ret = .err .einval ∧
    (apds9960_write_raw ⟨0, 5, 0⟩ rmInit false .int_time 7).ops = [] ∧
    (apds9960_write_raw ⟨0, 5, 0⟩ rmInit false .int_time 7).rm = rmInit :=
  invalid_gain_rejected_before_bus ⟨0, 5, 0⟩ rmInit false 7
    (by decide) (by decide) (by decide) (by decide)

/-- C5: for each of the four colour modifiers the scale query (with the
delegated ext-info call succeeding) returns the fixed fraction 0 / 10000
with the FRACTIONAL_LOG2 code; any other modifier is rejected with -EINVAL
before any delegated or bus access, leaving the out-parameters untouched. -/
theorem scale_for_channel_fixed_fraction
    (m : IioModLight) (a b v0 v20 : Int) (ext2 : ExtInfoRes)
    (hm : m ≠ IioModLight.other) :
    apds9960_read_raw m .scale ⟨a, b, .ok⟩ v0 v20 =
      ⟨0, 10000, 1, .fractionalLog2⟩ ∧
    apds9960_read_raw IioModLight.other .scale ext2 v0 v20 =
      ⟨v0, v20, 0, .err .einval⟩ := by
  constructor
  · cases m
    case other => exact absurd rfl hm
    all_goals rfl
  · rfl

/-- Witness for C5 at the red channel. -/
theorem scale_for_channel_fixed_fraction_witness :
    apds9960_read_raw IioModLight.red .scale ⟨3, 4, .ok⟩ 7 8 =
      ⟨0, 10000, 1, .fractionalLog2⟩ ∧
    apds9960_read_raw IioModLight.other .scale ⟨3, 4, .ok⟩ 7 8 =
      ⟨7, 8, 0, .err .einval⟩ :=
  scale_for_channel_fixed_fraction IioModLight.red 3 4 7 8 ⟨3, 4, .ok⟩
    (by decide)

/-- C6 counterexample: not all four ALS channel registers are volatile and
readable.  The red high byte (0x97), the green pair (0x98/0x99) and the
blue pair (0x9a/0x9b) are outside the declared volatile range, the blue
high byte (0x9b) is not even readable, and a raw channel read returns
-EINVAL (the driver has no raw-read path at all). -/
theorem als_channels_volatile_readable_cex :
    regmap_volatile (APDS9960_REG_ALS_CHANNEL .red + 1) = false ∧
    regmap_volatile (APDS9960_REG_ALS_CHANNEL .green) = false ∧
    regmap_volatile (APDS9960_REG_ALS_CHANNEL .blue) = false ∧
    regmap_readable (APDS9960_REG_ALS_CHANNEL .blue + 1) = false ∧
    (apds9960_read_raw .green .raw ⟨0, 0, .ok⟩ 3 4).ret = .err .einval := by
  decide

/-- C6 amended: the volatile range covers exactly registers 0x94-0x96 (the
clear-channel pair and the red low byte), the readable range covers exactly
0x81-0x9a (excluding the blue high byte), and a RAW query always returns
-EINVAL: only the clear channel is fully cache-bypassing, and there is no
raw channel read path in the driver. -/
theorem regmap_tables_actual_coverage :
    (∀ r, regmap_volatile r = true ↔
      (APDS9960_REG_ALS_BASE ≤ r ∧ r ≤ APDS9960_REG_ALS_BASE + 2)) ∧
    (∀ r, regmap_readable r = true ↔
      (APDS9960_REG_ATIME ≤ r ∧ r ≤ APDS9960_REG_ALS_BASE + 6)) ∧
    (∀ m ext v0 v20,
      (apds9960_read_raw m IioChanInfo.raw ext v0 v20).ret = .err .einval) ∧
    regmap_volatile (APDS9960_REG_ALS_CHANNEL .clear) = true ∧
    regmap_volatile (APDS9960_REG_ALS_CHANNEL .clear + 1) = true := by
  refine ⟨?_, ?_, ?_, by decide, by decide⟩
  · intro r
    unfold regmap_volatile RegmapAccessTable.allows apds9960_volatile_table
      apds9960_volatile_ranges RegmapRange.covers
    simp
  · intro r
    unfold regmap_readable RegmapAccessTable.allows apds9960_readable_table
      apds9960_readable_ranges RegmapRange.covers
    simp
  · intro m ext v0 v20
    unfold apds9960_read_raw
    rw [if_neg (by simp)]

/-- C7 counterexample: configure_event writes 1 (Armed) to the repurposed
clear-channel register and succeeds, and the subsequent query does read the
register (the value 1 lands in the driver's `als_int` field), but the
query's return value - which is what the callback reports to the IIO core
as the event-config state - is regmap_read's status 0, not the previously
written enable value 1. -/
theorem event_config_roundtrip_cex :
    (apds9960_als_write_event_config rmInit ⟨0, 1, 1000⟩ true 1).ret = .ok ∧
    (apds9960_als_read_event_config
      (apds9960_als_write_event_config rmInit ⟨0, 1, 1000⟩ true 1).rm
      (apds9960_als_write_event_config rmInit ⟨0, 1, 1000⟩ true 1).data
      true).retc = 0 ∧
    (apds9960_als_read_event_config
      (apds9960_als_write_event_config rmInit ⟨0, 1, 1000⟩ true 1).rm
      (apds9960_als_write_event_config rmInit ⟨0, 1, 1000⟩ true 1).data
      true).retc ≠ 1 ∧
    (apds9960_als_read_event_config
      (apds9960_als_write_event_config rmInit ⟨0, 1, 1000⟩ true 1).rm
      (apds9960_als_write_event_config rmInit ⟨0, 1, 1000⟩ true 1).data
      true).data.als_int = 1 := by
  refine ⟨rfl, rfl, by decide, rfl⟩

/-- C7 amended: after a successful configure_event(state), a query
retrieves the value previously written into the driver's `als_int` field
(the register is volatile, so the read goes to the hardware, which is
assumed to latch the write), but the query's return value is the bus
status 0, not the stored enable value. -/
theorem event_config_roundtrip_amended
    (rm : RegmapState) (d : Apds9960Data) (s : Nat) :
    (apds9960_als_write_event_config rm d true s).ret = .ok ∧
    (apds9960_als_read_event_config
      (apds9960_als_write_event_config rm d true s).rm
      (apds9960_als_write_event_config rm d true s).data
      true).data.als_int = ((s % 256 : Nat) : Int) ∧
    (apds9960_als_read_event_config
      (apds9960_als_write_event_config rm d true s).rm
      (apds9960_als_write_event_config rm d true s).data
      true).retc = 0 :=
  ⟨rfl, rfl, rfl⟩

/-- C8 counterexample: the repurposed clear-channel register (0x94) is not
in the precious range of the access tables. -/
theorem event_register_precious_cex :
    regmap_precious (APDS9960_REG_ALS_CHANNEL .clear) = false := by
  decide

/-- C8 amended: the precious range covers exactly registers 0x98-0x9a (the
green channel pair and the blue low byte), not the repurposed clear-channel
register 0x94; the event register is instead inside the volatile range, so
it is never cached, but it is not marked precious. -/
theorem precious_table_actual_coverage :
    regmap_precious (APDS9960_REG_ALS_CHANNEL .clear) = false ∧
    regmap_volatile (APDS9960_REG_ALS_CHANNEL .clear) = true ∧
    (∀ r, regmap_precious r = true ↔
      (APDS9960_REG_ALS_BASE + 4 ≤ r ∧ r ≤ APDS9960_REG_ALS_BASE + 6)) := by
  refine ⟨by decide, by decide, ?_⟩
  intro r
  unfold regmap_precious RegmapAccessTable.allows apds9960_precious_table
    apds9960_precious_ranges RegmapRange.covers
  simp

/-- The event list produced by n interrupt assertions, in closed form. -/
lemma runIrqAssertions_eq (d : Apds9960Data) (clock : Nat → Int) (n : Nat) :
    runIrqAssertions d clock n =
      (List.range n).map (fun i => ⟨d.als_int, clock i⟩) := by
  induction n with
  | zero => rfl
  | succ n ih =>
    rw [runIrqAssertions, ih, List.range_succ, List.map_append]
    rfl

/-- C9: each hardware interrupt assertion makes the handler emit exactly
one event notification, carrying the clock value of that assertion as the
timestamp and the currently cached `als_int` value as the event identifier;
the handler performs no bus transaction.  Under a monotonic clock source
the emitted timestamps are strictly increasing across back-to-back
assertions. -/
theorem irq_handler_single_event_no_bus
    (d : Apds9960Data) (clock : Nat → Int)
    (hmono : ∀ i j, i < j → clock i < clock j) (n : Nat) :
    (runIrqAssertions d clock n).length = n ∧
    (∀ e ∈ runIrqAssertions d clock n, e.code = d.als_int) ∧
    List.Pairwise (fun a b => a.timestamp < b.timestamp)
      (runIrqAssertions d clock n) ∧
    (∀ t, (apds9960_als_irq_handler d t).events = [⟨d.als_int, t⟩] ∧
      (apds9960_als_irq_handler d t).ops = []) := by
  rw [runIrqAssertions_eq]
  refine ⟨by simp, ?_, ?_, fun t => ⟨rfl, rfl⟩⟩
  · intro e he
    obtain ⟨i, _, rfl⟩ := List.mem_map.mp he
    rfl
  · rw [List.pairwise_map]
    exact (List.pairwise_lt_range n).imp (fun h => hmono _ _ h)

/-- Witness for C9: three back-to-back assertions under the identity clock
give three events with strictly increasing timestamps. -/
theorem irq_handler_single_event_no_bus_witness :
    (runIrqAssertions ⟨7, 1, 1000⟩ (fun i => (i : Int)) 3).length = 3 ∧
    List.Pairwise (fun a b => a.timestamp < b.timestamp)
      (runIrqAssertions ⟨7, 1, 1000⟩ (fun i => (i : Int)) 3) :=
  ⟨(irq_handler_single_event_no_bus ⟨7, 1, 1000⟩ (fun i => (i : Int))
      (fun i j h => Int.ofNat_lt.mpr h) 3).1,
   (irq_handler_single_event_no_bus ⟨7, 1, 1000⟩ (fun i => (i : Int))
      (fun i j h => Int.ofNat_lt.mpr h) 3).2.2.1⟩

/-- C10 counterexample: for requested value 0 and gain 64 the 64-bit
intermediate is 16384000 microseconds (not 16384000000): it fits a 32-bit
int, no modulo-2^32 truncation to a negative value happens, and the stored
`als_adc_int_us` is clamped to the upper bound 1000000, not to the lower
bound 1000. -/
theorem int32_truncation_cex :
    Int.tdiv (1000000 * (256 - 0) * 64) 1000 = 16384000 ∧
    apds9960_compute_int_time_us 0 64 = 16384000 ∧
    (0 : Int) ≤ apds9960_compute_int_time_us 0 64 ∧
    (apds9960_write_raw ⟨0, 64, 0⟩ rmInit true .int_time 0).data.als_adc_int_us
      = 1000000 ∧
    ((1000000 : Int) ≠ 1000) := by
  decide

/-- C10 amended: the 64-bit intermediate for requested value 0 and gain 64
is 16384000 microseconds; the store into the 32-bit `als_adc_int_us` does
not wrap (toInt32 is the identity on it), and the committed value is the
upper clamp bound 1000000.  The call itself succeeds. -/
theorem int32_no_truncation_amended :
    apds9960_compute_int_time_us 0 64 = 16384000 ∧
    toInt32 16384000 = 16384000 ∧
    apds9960_clamp_int_time 16384000 = 1000000 ∧
    (apds9960_write_raw ⟨0, 64, 0⟩ rmInit true .int_time 0).data.als_adc_int_us
      = 1000000 ∧
    (apds9960_write_raw ⟨0, 64, 0⟩ rmInit true .int_time 0).ret = .ok := by
  decide
